import Mathlib

/-!
Shallow embedding of the cc128-php-extractor repository's core
(`src/units.py`, `src/google_meter.py`, `src/rfc3339.py`) and proofs about it.

Conventions of the embedding:
* Python floats are modelled as rationals (the spec states exactness
  "under real-number arithmetic"; every computation in the code is
  field arithmetic, so `ℚ` is adequate and keeps everything decidable).
* A raised Python exception is modelled as `none` (for pure helpers) or as
  an explicit error result carrying the object state at the raise point
  (for the stateful `Meter` methods), so that exception-safety of the
  mutable state is a provable statement rather than a modelling artifact.
* The unit registry is the one built at import time at the bottom of
  `src/units.py`: SECOND, WATT, JOULE (= W·s, with that single declared
  factorization) and KILOWATT_HOUR (factor 3600*1000 over base JOULE).
  MINUTE, HOUR, KILOWATT, MEGAWATT in the source are `Quantity` values,
  not `Unit`s, so the unit type has exactly these four inhabitants.
-/

namespace GoogleMeter

/-- The four `Unit` objects created at import time in `src/units.py`
(lines 132-135): `s`, `W`, `J`, `kW h`. -/
inductive MUnit where
  | s
  | W
  | J
  | kWh
deriving DecidableEq

/-- `Unit.base` (src/units.py line 30): a unit is its own base unless an
explicit base was given; only KILOWATT_HOUR names a base (JOULE). -/
def MUnit.base : MUnit → MUnit
  | .kWh => .J
  | u => u

/-- `Unit.factor` (src/units.py line 29): KILOWATT_HOUR has factor
`3600*1000`; every other unit in the registry has factor 1. -/
def MUnit.factor : MUnit → ℚ
  | .kWh => 3600 * 1000
  | _ => 1

/-- The `products` dictionaries (src/units.py lines 33-39): the only
factorization declared is `J = W * s`, which registers
`W.products[s] = J` and `s.products[W] = J`. -/
def MUnit.products : MUnit → MUnit → Option MUnit
  | .W, .s => some .J
  | .s, .W => some .J
  | _, _ => none

/-- The `quotients` dictionaries (src/units.py lines 33-39): the `J = W * s`
factorization registers `J.quotients[W] = s` and `J.quotients[s] = W`. -/
def MUnit.quotients : MUnit → MUnit → Option MUnit
  | .J, .W => some .s
  | .J, .s => some .W
  | _, _ => none

/-- `Unit.IsConvertibleTo` (src/units.py lines 59-61):
`unit.base is self.base`. -/
def MUnit.IsConvertibleTo (self unit : MUnit) : Bool :=
  unit.base = self.base

/-- `Quantity` (src/units.py lines 64-69): a numerical value and a unit. -/
structure Quantity where
  value : ℚ
  unit : MUnit
deriving DecidableEq

/-- `Quantity.IsConvertibleTo` (src/units.py lines 124-126). -/
def Quantity.IsConvertibleTo (q : Quantity) (u : MUnit) : Bool :=
  q.unit.IsConvertibleTo u

/-- `Quantity.ConvertTo` (src/units.py lines 119-122): asserts
`self.unit.IsConvertibleTo(unit)` (an `AssertionError`, modelled as `none`,
when the bases differ), then rescales by `self.unit.factor / unit.factor`. -/
def Quantity.ConvertTo (q : Quantity) (u : MUnit) : Option Quantity :=
  if q.unit.IsConvertibleTo u then
    some ⟨q.value * q.unit.factor / u.factor, u⟩
  else
    none

/-- `Quantity.__neg__` (src/units.py lines 81-82). -/
def Quantity.neg (q : Quantity) : Quantity := ⟨-q.value, q.unit⟩

/-- `Quantity.__add__` (src/units.py lines 84-86): converts the right
operand to the left operand's unit (which may raise), then adds values. -/
def Quantity.add (a b : Quantity) : Option Quantity :=
  match b.ConvertTo a.unit with
  | some b2 => some ⟨a.value + b2.value, a.unit⟩
  | none => none

/-- `Quantity.__sub__` (src/units.py lines 88-90). -/
def Quantity.sub (a b : Quantity) : Option Quantity :=
  match b.ConvertTo a.unit with
  | some b2 => some ⟨a.value - b2.value, a.unit⟩
  | none => none

/-- `Quantity.__mul__` with a scalar operand (src/units.py lines 104-106). -/
def qmulScalar (q : Quantity) (x : ℚ) : Quantity := ⟨q.value * x, q.unit⟩

/-- `Quantity.__mul__` with a `Unit` operand (src/units.py lines 107-110).
If the pair is not in the `products` table the Python method falls off the
end and returns `None` (modelled as `none`); there is no fallback. -/
def qmulU (q : Quantity) (u : MUnit) : Option Quantity :=
  match q.unit.products u with
  | some r => some ⟨q.value, r⟩
  | none => none

/-- `Quantity.__mul__` with a `Quantity` operand (src/units.py
lines 111-114); again `None` when the unit pair is unregistered. -/
def qmulQ (q o : Quantity) : Option Quantity :=
  match q.unit.products o.unit with
  | some r => some ⟨q.value * o.value, r⟩
  | none => none

/-- Result of `Quantity.__div__` (src/units.py lines 92-101), which returns
either a `Quantity` or, when both operands carry the identical unit, a bare
scalar. -/
inductive DivRes where
  | qty (q : Quantity)
  | scalar (x : ℚ)
deriving DecidableEq

/-- `Quantity.__div__` with a `Unit` operand (src/units.py lines 92-95
and the fallback on line 101): if the quotient pair is unregistered the
method retries after `ConvertTo(self.unit.base)`.  When the base-unit pair
is also unregistered the Python recursion never terminates (converting a
base-unit quantity to its base is the identity), so the function takes a
fuel argument and `none` at fuel 0 models that divergence.  The inner
`ConvertTo` cannot fail (a unit always shares a base with its own base). -/
def qdivU : Nat → Quantity → MUnit → Option Quantity
  | 0, _, _ => none
  | fuel + 1, q, u =>
    match q.unit.quotients u with
    | some r => some ⟨q.value, r⟩
    | none =>
      match q.ConvertTo q.unit.base with
      | some qb => qdivU fuel qb u
      | none => none

/-- `Quantity.__div__` with a `Quantity` operand (src/units.py lines 96-101):
registered quotient pair divides the values; identical units give a bare
scalar; otherwise retry after converting to the base unit.  A zero divisor
value raises `ZeroDivisionError` in Python, modelled as `none` at the point
where the division is executed. -/
def qdivQ : Nat → Quantity → Quantity → Option DivRes
  | 0, _, _ => none
  | fuel + 1, q, o =>
    match q.unit.quotients o.unit with
    | some r => if o.value = 0 then none else some (.qty ⟨q.value / o.value, r⟩)
    | none =>
      if o.unit = q.unit then
        if o.value = 0 then none else some (.scalar (q.value / o.value))
      else
        match q.ConvertTo q.unit.base with
        | some qb => qdivQ fuel qb o
        | none => none

/-- Modelled from the spec: `Quantity` times `Unit` with the base-unit
fallback the spec describes for multiplication ("if the direct pair is
undeclared, the implementation retries after converting the left operand to
its base unit"); used to compare the spec's semantics with `qmulU`. -/
def qmulU_fallbackSpec (q : Quantity) (u : MUnit) : Option Quantity :=
  match q.unit.products u with
  | some r => some ⟨q.value, r⟩
  | none =>
    match q.unit.base.products u with
    | some r => some ⟨q.value * q.unit.factor / q.unit.base.factor, r⟩
    | none => none

/-- Modelled from the spec: `Quantity` times `Quantity` with the base-unit
fallback, for comparison with `qmulQ`. -/
def qmulQ_fallbackSpec (q o : Quantity) : Option Quantity :=
  match q.unit.products o.unit with
  | some r => some ⟨q.value * o.value, r⟩
  | none =>
    match q.unit.base.products o.unit with
    | some r => some ⟨q.value * q.unit.factor / q.unit.base.factor * o.value, r⟩
    | none => none

/-- Modelled from the spec: `Quantity` divided by `Unit` with exactly one
base-unit retry, undefined only when the base-unit pair is also
unregistered. -/
def qdivU_fallbackSpec (q : Quantity) (u : MUnit) : Option Quantity :=
  match q.unit.quotients u with
  | some r => some ⟨q.value, r⟩
  | none =>
    match q.unit.base.quotients u with
    | some r => some ⟨q.value * q.unit.factor / q.unit.base.factor, r⟩
    | none => none

/-- Modelled from the spec: `Quantity` divided by `Quantity` with the
identical-unit scalar special case and one base-unit retry. -/
def qdivQ_fallbackSpec (q o : Quantity) : Option DivRes :=
  match q.unit.quotients o.unit with
  | some r => if o.value = 0 then none else some (.qty ⟨q.value / o.value, r⟩)
  | none =>
    if o.unit = q.unit then
      if o.value = 0 then none else some (.scalar (q.value / o.value))
    else
      match q.unit.base.quotients o.unit with
      | some r =>
        if o.value = 0 then none
        else some (.qty ⟨q.value * q.unit.factor / q.unit.base.factor / o.value, r⟩)
      | none =>
        if o.unit = q.unit.base then
          if o.value = 0 then none
          else some (.scalar (q.value * q.unit.factor / q.unit.base.factor / o.value))
        else none

/-- Measurement events produced by a `Meter` (src/google_meter.py):
`InstMeasurement` (lines 196-218) and `DurMeasurement` (lines 264-289),
restricted to the fields the constructors store (the derived `id` string
and XML serialization belong to the excluded transport boundary). -/
inductive Event where
  | inst (subject : String) (occur_time : ℚ) (quantity : Quantity)
      (occur_time_uncertainty : ℚ) (quantity_uncertainty : Quantity)
      (initial : Bool)
  | dur (subject : String) (start_time end_time : ℚ) (quantity : Quantity)
      (start_time_uncertainty end_time_uncertainty : ℚ)
      (quantity_uncertainty : Quantity)
deriving DecidableEq

/-- The mutable state and configuration of `Meter`
(src/google_meter.py lines 733-753).  The service and variable
collaborators are reduced to the variable's path string (`var`), which is
the only datum of theirs that flows into the events the claims are about. -/
structure Meter where
  var : String
  uncertainty : Quantity
  time_uncertainty : ℚ
  durational : Bool
  register : Quantity
  last_read_time : Option ℚ
deriving DecidableEq

/-- `Meter.__init__` (src/google_meter.py lines 733-753): the register
starts at `0.0 * units.KILOWATT_HOUR`, i.e. `Quantity(0.0, KILOWATT_HOUR)`
via `Unit.__rmul__`. -/
def mkMeter (var : String) (uncertainty : Quantity) (time_uncertainty : ℚ)
    (durational : Bool) (last_read_time : Option ℚ) : Meter :=
  { var := var, uncertainty := uncertainty,
    time_uncertainty := time_uncertainty, durational := durational,
    register := ⟨0, .kWh⟩, last_read_time := last_read_time }

/-- `Meter.Reset` (src/google_meter.py lines 755-757). -/
def Meter.Reset (m : Meter) : Meter := { m with last_read_time := none }

/-- Outcome of a posting method.  `err state` models a Python exception
escaping the method, carrying the meter's state at the moment of the raise
(so exception-safety of the two state fields is a provable property, not an
artifact of the embedding); `ok state events` is normal return together
with the events handed to `service.PostEvent`, in posting order. -/
inductive PostResult where
  | err (state : Meter)
  | ok (state : Meter) (events : List Event)
deriving DecidableEq

/-- `Meter.PostInst` (src/google_meter.py lines 851-855) together with the
collaborator call `service.PostEvent`: builds the `InstMeasurement` and
posts it.  `postOk` abstracts the fallible posting boundary (transport
errors, and the `ConvertTo(KILOWATT_HOUR)` calls inside `ToXml`): `none`
means the post raised. -/
def Meter.PostInst (m : Meter) (postOk : Event → Bool) (occur_time : ℚ)
    (quantity : Quantity) (uncertainty : Quantity) (initial : Bool) :
    Option Event :=
  let e := Event.inst m.var occur_time quantity m.time_uncertainty
    uncertainty initial
  if postOk e then some e else none

/-- `Meter.PostDur` (src/google_meter.py lines 845-849) plus the
collaborator call.  `PostIntervalReading` can pass `start_time = None`
here; the `DurMeasurement` constructor then raises a `TypeError` from
`rfc3339.ToTimestamp(None)` while computing its id, modelled as `none`. -/
def Meter.PostDur (m : Meter) (postOk : Event → Bool)
    (start_time : Option ℚ) (end_time : ℚ)
    (quantity uncertainty : Quantity) : Option Event :=
  match start_time with
  | none => none
  | some s =>
    let e := Event.dur m.var s end_time quantity m.time_uncertainty
      m.time_uncertainty uncertainty
    if postOk e then some e else none

/-- `Meter.PostRegisterReading` (src/google_meter.py lines 759-791).
Optional arguments are `Option`s with the source's defaulting (`read_time`
defaults to `time.time()`, passed in as `now`; `uncertainty` defaults to
the meter's configured uncertainty).  Every `err` carries the meter state
live at the corresponding Python raise point. -/
def Meter.PostRegisterReading (m : Meter) (postOk : Event → Bool)
    (quantity : Quantity) (uncertainty : Option Quantity)
    (read_time : Option ℚ) (now : ℚ) : PostResult :=
  let rt := read_time.getD now
  let unc := uncertainty.getD m.uncertainty
  match quantity.ConvertTo .kWh with
  | none => .err m
  | some new_register =>
    if m.durational then
      match m.last_read_time with
      | some t =>
        match new_register.sub m.register with
        | none => .err m
        | some delta =>
          match m.PostDur postOk (some t) rt delta (qmulScalar unc 2) with
          | none => .err m
          | some e =>
            .ok { m with register := new_register, last_read_time := some rt }
              [e]
      | none =>
        .ok { m with register := new_register, last_read_time := some rt } []
    else
      match m.PostInst postOk rt new_register unc m.last_read_time.isNone with
      | none => .err m
      | some e =>
        .ok { m with register := new_register, last_read_time := some rt } [e]

/-- Python truthiness test `if not start_time:` used on
src/google_meter.py line 813: both `None` and `0` (or `0.0`) are falsy. -/
def pyFalsy : Option ℚ → Bool
  | none => true
  | some x => decide (x = 0)

/-- The register phase of `Meter.PostIntervalReading`
(src/google_meter.py lines 812-819), after argument defaulting: returns
the (possibly power-to-energy converted) quantity together with the new
register value, or the meter state at the raise point.  A `None` returned
by `Quantity.__mul__` (unregistered product pair) flows into
`self.register + quantity` and raises there (`AttributeError`), before any
event is posted or any state is assigned. -/
def Meter.intervalRegister (m : Meter) (quantity : Quantity)
    (st : Option ℚ) (et : ℚ) : Except Meter (Quantity × Quantity) :=
  if pyFalsy st then
    .ok (quantity, m.register)
  else
    match st with
    | none => .ok (quantity, m.register)
    | some s =>
      if quantity.IsConvertibleTo .W then
        match qmulQ quantity ⟨et - s, .s⟩ with
        | none => .error m
        | some q2 =>
          match m.register.add q2 with
          | none => .error m
          | some nr => .ok (q2, nr)
      else
        match m.register.add quantity with
        | none => .error m
        | some nr => .ok (quantity, nr)

/-- `Meter.PostIntervalReading` (src/google_meter.py lines 793-843).
`start_time` defaults to `self.last_read_time`, `end_time` to
`time.time()` (passed in as `now`), `uncertainty` to the configured one.
In the subsequent-call branch a `None` start can never occur (the default
makes it equal to the present `last_read_time`); Python would raise a
`TypeError` constructing the event there, so the model returns `err m`. -/
def Meter.PostIntervalReading (m : Meter) (postOk : Event → Bool)
    (quantity : Quantity) (uncertainty : Option Quantity)
    (start_time end_time : Option ℚ) (now : ℚ) : PostResult :=
  let st : Option ℚ :=
    match start_time with
    | none => m.last_read_time
    | some s => some s
  let et := end_time.getD now
  let unc := uncertainty.getD m.uncertainty
  match m.intervalRegister quantity st et with
  | .error mErr => .err mErr
  | .ok (q1, new_register) =>
    if m.durational then
      match m.PostDur postOk st et q1 unc with
      | none => .err m
      | some e =>
        .ok { m with register := new_register, last_read_time := some et } [e]
    else
      match m.last_read_time with
      | none =>
        match st with
        | none =>
          match m.PostInst postOk et m.register unc true with
          | none => .err m
          | some e =>
            .ok { m with register := new_register, last_read_time := some et }
              [e]
        | some s =>
          match m.PostInst postOk s m.register unc true with
          | none => .err m
          | some e1 =>
            match m.PostInst postOk et new_register unc false with
            | none => .err m
            | some e2 =>
              .ok { m with register := new_register, last_read_time := some et } [e1, e2]
      | some lrt =>
        if st = some lrt then
          match m.PostInst postOk et new_register unc false with
          | none => .err m
          | some e =>
            .ok { m with register := new_register, last_read_time := some et }
              [e]
        else
          match st with
          | none => .err m
          | some s =>
            match m.PostInst postOk s m.register unc true with
            | none => .err m
            | some e1 =>
              match m.PostInst postOk et new_register unc false with
              | none => .err m
              | some e2 =>
                .ok { m with register := new_register, last_read_time := some et } [e1, e2]

/-- The whitespace characters on which Python's `str.split()` splits;
`''.join(timestamp.split())` (src/rfc3339.py line 68) removes exactly
these characters. -/
def isPySpace (c : Char) : Bool :=
  c = ' ' ∨ c = '\t' ∨ c = '\n' ∨ c = '\x0d' ∨ c = '\x0b' ∨ c = '\x0c'

/-- Reads exactly `n` ASCII digits, accumulating their value. -/
def readDigits : Nat → Nat → List Char → Option (Nat × List Char)
  | 0, acc, cs => some (acc, cs)
  | n + 1, acc, cs =>
    match cs with
    | c :: rest =>
      if c.isDigit then readDigits n (acc * 10 + (c.toNat - 48)) rest
      else none
    | [] => none

/-- Expects one literal character. -/
def expectChar (ch : Char) : List Char → Option (List Char)
  | c :: rest => if c = ch then some rest else none
  | [] => none

/-- Numeric value of a digit string (`int(...)` on an all-digit string). -/
def digitsToNat (ds : List Char) : Nat :=
  ds.foldl (fun a c => a * 10 + (c.toNat - 48)) 0

/-- `int((second.split('.')[1] + '000')[:3])` (src/rfc3339.py line 81):
the first three fractional-second digits, zero-padded — i.e. digits beyond
the third are truncated, not rounded. -/
def fracToMs (ds : List Char) : Nat :=
  match ds ++ ['0', '0', '0'] with
  | a :: b :: c :: _ => (a.toNat - 48) * 100 + (b.toNat - 48) * 10 + (c.toNat - 48)
  | _ => 0

/-- The fields extracted by the regular expression and group post-processing
of `FromTimestamp` (src/rfc3339.py lines 70-91). -/
structure TsFields where
  year : Nat
  month : Nat
  day : Nat
  hour : Nat
  minute : Nat
  second : Nat
  milliseconds : Nat
  zoneOffset : Int
deriving DecidableEq

/-- The optional seconds group `(?::(\\d\\d\\.?\\d*))?` of the timestamp
pattern together with its post-processing (src/rfc3339.py lines 70-81):
a colon commits to two seconds digits; a following dot starts the
fractional part, whose greedy digit run is reduced to milliseconds by
`fracToMs`; with no dot, the greedy trailing digits extend the integer
seconds value, exactly as the regex matches them.  Absent group: seconds 0,
milliseconds 0.  Returns (seconds, milliseconds, remaining input). -/
def parseSecondsGroup (cs : List Char) : Option (Nat × Nat × List Char) :=
  match cs with
  | ':' :: rest =>
    match readDigits 2 0 rest with
    | none => none
    | some (s2, rest2) =>
      match rest2 with
      | '.' :: rest3 =>
        match rest3.span (fun c => c.isDigit) with
        | (fr, rest4) => some (s2, fracToMs fr, rest4)
      | _ =>
        match rest2.span (fun c => c.isDigit) with
        | (more, rest4) =>
          some (more.foldl (fun a c => a * 10 + (c.toNat - 48)) s2, 0, rest4)
  | _ => some (0, 0, cs)

/-- The time-zone alternative `(Z|[-+]\\d+:?(\\d\\d)?)` with the offset
computation of src/rfc3339.py lines 84-91: `Z` is offset 0; a sign is
followed by a greedy digit run (all of which become `zone_hours`, as in
`int(zone[1:].split(':')[0])`), an optional colon and an optional pair of
minute digits. -/
def parseZoneOffset (cs : List Char) : Option Int :=
  match cs with
  | 'Z' :: _ => some 0
  | c :: rest =>
    if c = '+' ∨ c = '-' then
      match rest.span (fun ch => ch.isDigit) with
      | (zds, rest2) =>
        if zds = [] then none
        else
          let zh : Int := digitsToNat zds
          let zm : Int :=
            match rest2 with
            | ':' :: r3 =>
              match readDigits 2 0 r3 with
              | some (v, _) => (v : Int)
              | none => 0
            | _ => 0
          let off := zh * 3600 + zm * 60
          some (if c = '-' then -off else off)
    else none
  | [] => none

/-- The anchored-at-start match of
`(\\d\\d\\d\\d)-(\\d\\d)-(\\d\\d)T(\\d\\d):(\\d\\d)(?::(\\d\\d\\.?\\d*))?(Z|[-+]\\d+:?(\\d\\d)?)`
(src/rfc3339.py lines 70-71) together with the group post-processing of
lines 74-91.  `re.match` only anchors at the start, so any trailing
characters after a successful match are ignored.  The regex is
deterministic here (each optional piece either commits or makes the zone
alternative fail), so a straight recursive-descent parse, staged into the
fixed date-time prefix, the seconds group and the zone, is equivalent. -/
def parseTimestamp (cs0 : List Char) : Option TsFields :=
  match readDigits 4 0 cs0 with
  | none => none
  | some (y, cs1) =>
  match expectChar '-' cs1 with
  | none => none
  | some cs2 =>
  match readDigits 2 0 cs2 with
  | none => none
  | some (mo, cs3) =>
  match expectChar '-' cs3 with
  | none => none
  | some cs4 =>
  match readDigits 2 0 cs4 with
  | none => none
  | some (d, cs5) =>
  match expectChar 'T' cs5 with
  | none => none
  | some cs6 =>
  match readDigits 2 0 cs6 with
  | none => none
  | some (h, cs7) =>
  match expectChar ':' cs7 with
  | none => none
  | some cs8 =>
  match readDigits 2 0 cs8 with
  | none => none
  | some (mi, cs9) =>
  match parseSecondsGroup cs9 with
  | none => none
  | some (ss, ms, csA) =>
  match parseZoneOffset csA with
  | none => none
  | some zo => some ⟨y, mo, d, h, mi, ss, ms, zo⟩

/-- Days-in-preceding-months table used by `datetime.date.toordinal`. -/
def daysBeforeMonth : Nat → Nat
  | 2 => 31
  | 3 => 59
  | 4 => 90
  | 5 => 120
  | 6 => 151
  | 7 => 181
  | 8 => 212
  | 9 => 243
  | 10 => 273
  | 11 => 304
  | 12 => 334
  | _ => 0

/-- Gregorian leap-year test. -/
def isLeap (y : Nat) : Bool :=
  y % 4 = 0 ∧ (y % 100 ≠ 0 ∨ y % 400 = 0)

/-- `datetime.date(y, mo, 1).toordinal()`: days since 0001-01-01 plus 1. -/
def toordinalFirst (y mo : Nat) : Int :=
  ((y - 1) * 365 + (y - 1) / 4 - (y - 1) / 100 + (y - 1) / 400
    + daysBeforeMonth mo + (if 2 < mo ∧ isLeap y then 1 else 0) + 1 : Int)

/-- `calendar.timegm` as implemented in CPython: goes through
`datetime.date(year, month, 1)`, which validates `1 <= year <= 9999` and
`1 <= month <= 12` (raising `ValueError` otherwise, modelled as `none`);
day, hour, minute and second are combined purely arithmetically with no
range validation. -/
def timegm (y mo d h mi s : Nat) : Option Int :=
  if 1 ≤ y ∧ y ≤ 9999 ∧ 1 ≤ mo ∧ mo ≤ 12 then
    some ((((toordinalFirst y mo - 719163 + (d : Int) - 1) * 24 + h) * 60
      + mi) * 60 + s)
  else none

/-- `FromTimestamp` (src/rfc3339.py lines 54-94): strip whitespace, prefix-
match the timestamp pattern, convert via `calendar.timegm`, subtract the
zone offset, and return `(integer_time * 1000 + milliseconds) * 0.001`
(exact in the rational model).  `none` models the `ValueError` raised on a
failed match (line 73) or inside `timegm`. -/
def FromTimestamp (s : String) : Option ℚ :=
  match parseTimestamp (s.toList.filter (fun c => !(isPySpace c))) with
  | none => none
  | some f =>
    match timegm f.year f.month f.day f.hour f.minute f.second with
    | none => none
    | some it =>
      some ((((it - f.zoneOffset) * 1000 + (f.milliseconds : Int) : Int) : ℚ)
        / 1000)

/-- Modelled from the spec (helper): strict zone designator, `Z`, `+hh:mm`
or `-hh:mm`, consuming the entire remaining input. -/
def strictZone : List Char → Bool
  | ['Z'] => true
  | c :: rest =>
    if c = '+' ∨ c = '-' then
      match readDigits 2 0 rest with
      | some (_, r1) =>
        match expectChar ':' r1 with
        | some r2 =>
          match readDigits 2 0 r2 with
          | some (_, r3) => r3 = []
          | none => false
        | none => false
      | none => false
    else false
  | [] => false

/-- Modelled from the spec (helper): strict whole-string parse of
`yyyy-mm-ddThh:mm:ss[.frac]` plus a zone `Z`, `+hh:mm` or `-hh:mm`,
consuming the entire input. -/
def parseStrictRfc3339 (cs0 : List Char) : Bool :=
  match readDigits 4 0 cs0 with
  | none => false
  | some (_, cs1) =>
  match expectChar '-' cs1 with
  | none => false
  | some cs2 =>
  match readDigits 2 0 cs2 with
  | none => false
  | some (_, cs3) =>
  match expectChar '-' cs3 with
  | none => false
  | some cs4 =>
  match readDigits 2 0 cs4 with
  | none => false
  | some (_, cs5) =>
  match expectChar 'T' cs5 with
  | none => false
  | some cs6 =>
  match readDigits 2 0 cs6 with
  | none => false
  | some (_, cs7) =>
  match expectChar ':' cs7 with
  | none => false
  | some cs8 =>
  match readDigits 2 0 cs8 with
  | none => false
  | some (_, cs9) =>
  match expectChar ':' cs9 with
  | none => false
  | some csA =>
  match readDigits 2 0 csA with
  | none => false
  | some (_, csB) =>
  match csB with
  | '.' :: r =>
    match r.span (fun c => c.isDigit) with
    | (fr1, fr2) => if fr1 = [] then false else strictZone fr2
  | _ => strictZone csB

/-- Modelled from the spec: a strict whole-string RFC-3339 recognizer for
the format the spec and the source docstring describe
(`yyyy-mm-ddThh:mm:ss.sss` followed by a time zone given as `Z`, `+hh:mm`
or `-hh:mm`, fractional seconds optional) — the notion of "RFC-3339
format" against which claim C9's error contract is judged; the repository
itself contains no full-string validator. -/
def IsRfc3339String (s : String) : Bool :=
  parseStrictRfc3339 s.toList

/-!  ## Helper lemmas (shared; not tied to any single claim) -/

/-- If a unit is its own base and the quotient pair is unregistered, the
`__div__` recursion never leaves that state: it diverges (is `none` for
every fuel). -/
lemma qdivU_base_loop (u' u : MUnit) (hb : u'.base = u')
    (hq : u'.quotients u = none) :
    ∀ (f : Nat) (v : ℚ), qdivU f ⟨v, u'⟩ u = none := by
  intro f
  induction f with
  | zero => intro v; rfl
  | succ f ih =>
    intro v
    simp only [qdivU]
    simp [hq, Quantity.ConvertTo, MUnit.IsConvertibleTo, hb, ih]

/-- The quantity-operand analogue of `qdivU_base_loop`. -/
lemma qdivQ_base_loop (u' : MUnit) (o : Quantity) (hb : u'.base = u')
    (hq : u'.quotients o.unit = none) (hne : o.unit ≠ u') :
    ∀ (f : Nat) (v : ℚ), qdivQ f ⟨v, u'⟩ o = none := by
  intro f
  induction f with
  | zero => intro v; rfl
  | succ f ih =>
    intro v
    simp only [qdivQ]
    simp [hq, hne, Quantity.ConvertTo, MUnit.IsConvertibleTo, hb, ih]

/-- Unit-operand division coincides with the spec's one-retry fallback once
two recursion steps of fuel are available. -/
lemma qdivU_eq_fallback (q : Quantity) (u : MUnit) (f : Nat) :
    qdivU (f + 2) q u = qdivU_fallbackSpec q u := by
  obtain ⟨v, u1⟩ := q
  cases u1 <;> cases u <;>
    simp [qdivU, qdivU_fallbackSpec, Quantity.ConvertTo,
      MUnit.IsConvertibleTo, MUnit.quotients, MUnit.base, MUnit.factor] <;>
    (apply qdivU_base_loop <;> rfl)

/-- Quantity-operand division coincides with the spec's one-retry fallback
once two recursion steps of fuel are available. -/
lemma qdivQ_eq_fallback (q o : Quantity) (f : Nat) :
    qdivQ (f + 2) q o = qdivQ_fallbackSpec q o := by
  obtain ⟨v, u1⟩ := q
  obtain ⟨w, u2⟩ := o
  cases u1 <;> cases u2 <;>
    simp [qdivQ, qdivQ_fallbackSpec, Quantity.ConvertTo,
      MUnit.IsConvertibleTo, MUnit.quotients, MUnit.base, MUnit.factor] <;>
    (apply qdivQ_base_loop <;> first | rfl | simp)

/-!  ## Claims about the quantity algebra -/

/-- Claim C6: `ConvertTo` fails (with the unit-mismatch assertion) exactly
when the target unit's base differs from the quantity's unit's base, and
when the bases agree it returns the value rescaled by
`q.unit.factor / u.factor`, exactly, carrying unit `u`. -/
theorem claim_C6 (q : Quantity) (u : MUnit) :
    (q.ConvertTo u = none ↔ MUnit.base u ≠ MUnit.base q.unit) ∧
    (MUnit.base u = MUnit.base q.unit →
      q.ConvertTo u = some ⟨q.value * q.unit.factor / u.factor, u⟩) := by
  constructor
  · by_cases h : MUnit.base u = MUnit.base q.unit <;>
      simp [Quantity.ConvertTo, Quantity.IsConvertibleTo,
        MUnit.IsConvertibleTo, h]
  · intro h
    simp [Quantity.ConvertTo, Quantity.IsConvertibleTo,
      MUnit.IsConvertibleTo, h]

/-- Claim C6 witness: converting 5 kWh to joules succeeds with the exact
rescaled value. -/
theorem claim_C6_witness :
    MUnit.base MUnit.J = MUnit.base (Quantity.mk (5 : ℚ) MUnit.kWh).unit ∧
    Quantity.ConvertTo ⟨(5 : ℚ), MUnit.kWh⟩ MUnit.J
      = some ⟨(5 : ℚ) * MUnit.factor (Quantity.mk (5 : ℚ) MUnit.kWh).unit
          / MUnit.factor MUnit.J, MUnit.J⟩ :=
  ⟨by decide, (claim_C6 ⟨5, MUnit.kWh⟩ MUnit.J).2 (by decide)⟩

/-- Claim C7: addition fails with the unit-mismatch assertion exactly when
the two units' bases differ; otherwise it succeeds, the result carries the
left operand's unit, and the two orders denote the same physical value
(converting the `b + a` result into `a`'s unit yields the `a + b` result
exactly, in rational arithmetic). -/
theorem claim_C7 (a b : Quantity) :
    (Quantity.add a b = none ↔ MUnit.base a.unit ≠ MUnit.base b.unit) ∧
    (MUnit.base a.unit = MUnit.base b.unit →
      ∃ r s, Quantity.add a b = some r ∧ r.unit = a.unit ∧
        Quantity.add b a = some s ∧ s.ConvertTo a.unit = some r) := by
  obtain ⟨x, u1⟩ := a
  obtain ⟨y, u2⟩ := b
  constructor
  · cases u1 <;> cases u2 <;>
      simp [Quantity.add, Quantity.ConvertTo, MUnit.IsConvertibleTo,
        MUnit.base]
  · intro h
    cases u1 <;> cases u2 <;>
      first
        | exact ⟨_, _, rfl, rfl, rfl, by
            simp [Quantity.add, Quantity.ConvertTo, MUnit.IsConvertibleTo,
              MUnit.base, MUnit.factor]
            try ring⟩
        | simp [MUnit.base] at h

/-- Claim C7 witness: 1 J plus 2 kWh succeeds in both orders and the
results agree after conversion to joules. -/
theorem claim_C7_witness :
    MUnit.base (Quantity.mk (1 : ℚ) MUnit.J).unit
      = MUnit.base (Quantity.mk (2 : ℚ) MUnit.kWh).unit ∧
    ∃ r s, Quantity.add ⟨(1 : ℚ), MUnit.J⟩ ⟨(2 : ℚ), MUnit.kWh⟩ = some r ∧
      r.unit = (Quantity.mk (1 : ℚ) MUnit.J).unit ∧
      Quantity.add ⟨(2 : ℚ), MUnit.kWh⟩ ⟨(1 : ℚ), MUnit.J⟩ = some s ∧
      s.ConvertTo (Quantity.mk (1 : ℚ) MUnit.J).unit = some r :=
  ⟨by decide, (claim_C7 ⟨1, MUnit.J⟩ ⟨2, MUnit.kWh⟩).2 (by decide)⟩

/-- Claim C5: on the registered unit system, multiplication of a quantity
by a unit or by another quantity behaves exactly like the spec's base-unit
fallback semantics (so it is undefined precisely when the base-unit pair is
also unregistered — the `isNone` equivalences), and division, which
implements the fallback by recursion, likewise coincides with the
one-retry fallback semantics whenever at least two steps of fuel are
available (with fewer, only divergence is at stake, and divergence happens
exactly when the base-unit pair is unregistered too). -/
theorem claim_C5 (q o : Quantity) (u : MUnit) (f : Nat) :
    qmulU q u = qmulU_fallbackSpec q u ∧
    qmulQ q o = qmulQ_fallbackSpec q o ∧
    ((qmulU q u).isNone ↔ ((MUnit.base q.unit).products u).isNone) ∧
    ((qmulQ q o).isNone ↔ ((MUnit.base q.unit).products o.unit).isNone) ∧
    qdivU (f + 2) q u = qdivU_fallbackSpec q u ∧
    ((qdivU (f + 2) q u).isNone ↔
      ((MUnit.base q.unit).quotients u).isNone) ∧
    qdivQ (f + 2) q o = qdivQ_fallbackSpec q o := by
  refine ⟨?_, ?_, ?_, ?_, qdivU_eq_fallback q u f, ?_, qdivQ_eq_fallback q o f⟩
  · obtain ⟨v, u1⟩ := q
    cases u1 <;> cases u <;>
      simp [qmulU, qmulU_fallbackSpec, MUnit.products, MUnit.base]
  · obtain ⟨v, u1⟩ := q
    obtain ⟨w, u2⟩ := o
    cases u1 <;> cases u2 <;>
      simp [qmulQ, qmulQ_fallbackSpec, MUnit.products, MUnit.base]
  · obtain ⟨v, u1⟩ := q
    cases u1 <;> cases u <;>
      simp [qmulU, MUnit.products, MUnit.base]
  · obtain ⟨v, u1⟩ := q
    obtain ⟨w, u2⟩ := o
    cases u1 <;> cases u2 <;>
      simp [qmulQ, MUnit.products, MUnit.base]
  · rw [qdivU_eq_fallback q u f]
    obtain ⟨v, u1⟩ := q
    cases u1 <;> cases u <;>
      simp [qdivU_fallbackSpec, MUnit.quotients, MUnit.base, MUnit.factor]

/-!  ## Claims about the meter state machine -/

/-- Every error of the register phase of `PostIntervalReading` carries the
unchanged input meter state. -/
lemma intervalRegister_err (m : Meter) (q : Quantity) (st : Option ℚ)
    (et : ℚ) :
    ∀ mErr, m.intervalRegister q st et = .error mErr → mErr = m := by
  intro mErr h
  simp only [Meter.intervalRegister] at h
  repeat' split at h
  all_goals simp_all

/-- Every error of `PostRegisterReading` carries the unchanged meter. -/
lemma postRegister_err_state (m : Meter) (postOk : Event → Bool)
    (quantity : Quantity) (uncertainty : Option Quantity)
    (read_time : Option ℚ) (now : ℚ) :
    ∀ mErr, m.PostRegisterReading postOk quantity uncertainty read_time now
      = .err mErr → mErr = m := by
  intro mErr h
  simp only [Meter.PostRegisterReading, Meter.PostDur, Meter.PostInst] at h
  repeat' split at h
  all_goals simp_all

/-- Every error of `PostIntervalReading` carries the unchanged meter. -/
lemma postInterval_err_state (m : Meter) (postOk : Event → Bool)
    (quantity : Quantity) (uncertainty : Option Quantity)
    (start_time end_time : Option ℚ) (now : ℚ) :
    ∀ mErr, m.PostIntervalReading postOk quantity uncertainty start_time
      end_time now = .err mErr → mErr = m := by
  intro mErr h
  simp only [Meter.PostIntervalReading] at h
  split at h
  · rename_i mE heq
    cases h
    exact intervalRegister_err _ _ _ _ _ heq
  · simp only [Meter.PostDur, Meter.PostInst] at h
    repeat' split at h
    all_goals simp_all

/-- Claim C4: whenever `PostRegisterReading` or `PostIntervalReading` fails
(any error from unit conversion, quantity arithmetic, or the posting
collaborator), the meter's `register` and `last_read_time` — indeed the
whole meter state — are exactly as before the call: both methods assign
their state fields only after every fallible sub-step has succeeded. -/
theorem claim_C4 (m : Meter) (postOk : Event → Bool) (quantity : Quantity)
    (uncertainty : Option Quantity) (read_time start_time end_time : Option ℚ)
    (now : ℚ) :
    (∀ mErr, m.PostRegisterReading postOk quantity uncertainty read_time now
      = .err mErr → mErr = m) ∧
    (∀ mErr, m.PostIntervalReading postOk quantity uncertainty start_time
      end_time now = .err mErr → mErr = m) :=
  ⟨postRegister_err_state m postOk quantity uncertainty read_time now,
    postInterval_err_state m postOk quantity uncertainty start_time
      end_time now⟩

/-- Claim C4 witness: a register reading in seconds (not convertible to
energy) and an interval reading in seconds both abort, returning the meter
unchanged. -/
theorem claim_C4_witness :
    (mkMeter "v" ⟨1, .kWh⟩ 1 false none).PostRegisterReading (fun _ => true)
        ⟨1, .s⟩ none none 0
      = .err (mkMeter "v" ⟨1, .kWh⟩ 1 false none) ∧
    (mkMeter "v" ⟨1, .kWh⟩ 1 false none).PostIntervalReading (fun _ => true)
        ⟨1, .s⟩ none (some 5) (some 10) 0
      = .err (mkMeter "v" ⟨1, .kWh⟩ 1 false none) ∧
    mkMeter "v" ⟨1, .kWh⟩ 1 false none = mkMeter "v" ⟨1, .kWh⟩ 1 false none :=
  ⟨by decide, by decide,
    (claim_C4 (mkMeter "v" ⟨1, .kWh⟩ 1 false none) (fun _ => true) ⟨1, .s⟩
      none none (some 5) (some 10) 0).1
      (mkMeter "v" ⟨1, .kWh⟩ 1 false none) (by decide)⟩

/-- Claim C2: on an instantaneous meter, the first-ever interval reading
with explicit start `S` and end `E` posts exactly two events — one at `S`
carrying the old register with `initial = true`, one at `E` carrying the
new register with `initial = false`; a subsequent reading whose start
equals the previous `last_read_time` posts exactly one event (the boundary
event is suppressed), and a subsequent reading whose start differs posts
two. -/
theorem claim_C2 (m : Meter) (postOk : Event → Bool) (q : Quantity)
    (unc : Option Quantity) (S E t now : ℚ) (m' : Meter) (evs : List Event)
    (hdur : m.durational = false) :
    (m.last_read_time = none →
      m.PostIntervalReading postOk q unc (some S) (some E) now
        = .ok m' evs →
      evs = [Event.inst m.var S m.register m.time_uncertainty
          (unc.getD m.uncertainty) true,
        Event.inst m.var E m'.register m.time_uncertainty
          (unc.getD m.uncertainty) false]) ∧
    (m.last_read_time = some t →
      m.PostIntervalReading postOk q unc (some t) (some E) now
        = .ok m' evs →
      evs = [Event.inst m.var E m'.register m.time_uncertainty
          (unc.getD m.uncertainty) false]) ∧
    (m.last_read_time = some t → S ≠ t →
      m.PostIntervalReading postOk q unc (some S) (some E) now
        = .ok m' evs →
      evs = [Event.inst m.var S m.register m.time_uncertainty
          (unc.getD m.uncertainty) true,
        Event.inst m.var E m'.register m.time_uncertainty
          (unc.getD m.uncertainty) false]) := by
  refine ⟨?_, ?_, ?_⟩
  · intro hlast h
    simp only [Meter.PostIntervalReading, Meter.PostInst, hdur, hlast] at h
    repeat' split at h
    all_goals
      first
        | (simp_all; done)
        | (obtain ⟨rfl, rfl⟩ := h
           simp_all)
  · intro hlast h
    simp only [Meter.PostIntervalReading, Meter.PostInst, hdur, hlast] at h
    repeat' split at h
    all_goals
      first
        | (simp_all; done)
        | (obtain ⟨rfl, rfl⟩ := h
           simp_all)
  · intro hlast hne h
    simp only [Meter.PostIntervalReading, Meter.PostInst, hdur, hlast,
      Option.getD_some, Option.some.injEq, hne] at h
    repeat' split at h
    all_goals
      first
        | (simp_all; done)
        | (obtain ⟨rfl, rfl⟩ := h
           simp_all)

/-- Claim C2 witness: a fresh instantaneous meter posting 2 kW over
[10, 3610] emits the two boundary events; the follow-up contiguous reading
emits one; a follow-up with a different start emits two. -/
theorem claim_C2_witness :
    (mkMeter "v" ⟨1, .kWh⟩ 1 false none).durational = false ∧
    (mkMeter "v" ⟨1, .kWh⟩ 1 false none).last_read_time = none ∧
    (mkMeter "v" ⟨1, .kWh⟩ 1 false none).PostIntervalReading (fun _ => true)
        ⟨2000, .W⟩ none (some 10) (some 3610) 0
      = .ok { mkMeter "v" ⟨1, .kWh⟩ 1 false none with
          register := ⟨2, .kWh⟩, last_read_time := some 3610 }
        [Event.inst "v" 10 ⟨0, .kWh⟩ 1 ⟨1, .kWh⟩ true,
          Event.inst "v" 3610 ⟨2, .kWh⟩ 1 ⟨1, .kWh⟩ false] ∧
    [Event.inst "v" 10 ⟨0, .kWh⟩ 1 ⟨1, .kWh⟩ true,
        Event.inst "v" 3610 ⟨2, .kWh⟩ 1 ⟨1, .kWh⟩ false]
      = [Event.inst (mkMeter "v" ⟨1, .kWh⟩ 1 false none).var 10
          (mkMeter "v" ⟨1, .kWh⟩ 1 false none).register
          (mkMeter "v" ⟨1, .kWh⟩ 1 false none).time_uncertainty
          ((none : Option Quantity).getD
            (mkMeter "v" ⟨1, .kWh⟩ 1 false none).uncertainty) true,
        Event.inst (mkMeter "v" ⟨1, .kWh⟩ 1 false none).var 3610
          (Quantity.mk 2 .kWh)
          (mkMeter "v" ⟨1, .kWh⟩ 1 false none).time_uncertainty
          ((none : Option Quantity).getD
            (mkMeter "v" ⟨1, .kWh⟩ 1 false none).uncertainty) false] :=
  ⟨rfl, rfl, by
      norm_num [Meter.PostIntervalReading, Meter.intervalRegister,
        Meter.PostInst, mkMeter, pyFalsy, Quantity.IsConvertibleTo,
        MUnit.IsConvertibleTo, Quantity.add, Quantity.ConvertTo, qmulQ,
        MUnit.products, MUnit.base, MUnit.factor],
    (claim_C2 (mkMeter "v" ⟨1, .kWh⟩ 1 false none) (fun _ => true)
      ⟨2000, .W⟩ none 10 3610 0 0
      { mkMeter "v" ⟨1, .kWh⟩ 1 false none with
        register := ⟨2, .kWh⟩, last_read_time := some 3610 }
      [Event.inst "v" 10 ⟨0, .kWh⟩ 1 ⟨1, .kWh⟩ true,
        Event.inst "v" 3610 ⟨2, .kWh⟩ 1 ⟨1, .kWh⟩ false] rfl).1 rfl
      (by
        norm_num [Meter.PostIntervalReading, Meter.intervalRegister,
          Meter.PostInst, mkMeter, pyFalsy, Quantity.IsConvertibleTo,
          MUnit.IsConvertibleTo, Quantity.add, Quantity.ConvertTo, qmulQ,
          MUnit.products, MUnit.base, MUnit.factor])⟩

/-- Claim C3: on a durational meter, the first-ever register reading
(no `last_read_time`) posts no events and only sets the baseline, while a
subsequent register reading posts exactly one durational event spanning
(`last_read_time`, `read_time`) whose quantity is the register delta
(new minus old) and whose uncertainty is twice the supplied-or-default
uncertainty; in both cases the register and `last_read_time` advance. -/
theorem claim_C3 (m : Meter) (postOk : Event → Bool) (q : Quantity)
    (unc : Option Quantity) (read_time : Option ℚ) (t now : ℚ) (m' : Meter)
    (evs : List Event) (hdur : m.durational = true) :
    (m.last_read_time = none →
      m.PostRegisterReading postOk q unc read_time now = .ok m' evs →
      evs = [] ∧ q.ConvertTo .kWh = some m'.register ∧
        m'.last_read_time = some (read_time.getD now)) ∧
    (m.last_read_time = some t →
      m.PostRegisterReading postOk q unc read_time now = .ok m' evs →
      ∃ nr d, q.ConvertTo .kWh = some nr ∧ nr.sub m.register = some d ∧
        evs = [Event.dur m.var t (read_time.getD now) d m.time_uncertainty
          m.time_uncertainty (qmulScalar (unc.getD m.uncertainty) 2)] ∧
        m'.register = nr ∧ m'.last_read_time = some (read_time.getD now)) := by
  constructor
  · intro hlast h
    simp only [Meter.PostRegisterReading, hdur, hlast] at h
    repeat' split at h
    all_goals
      first
        | (simp_all; done)
        | (obtain ⟨rfl, rfl⟩ := h
           simp_all)
  · intro hlast h
    simp only [Meter.PostRegisterReading, Meter.PostDur, hdur, hlast] at h
    repeat' split at h
    all_goals
      first
        | (simp_all; done)
        | (obtain ⟨rfl, rfl⟩ := h
           exact ⟨_, _, by assumption, by assumption, by simp_all, rfl, rfl⟩)

/-- Claim C3 witness: a durational meter at register 5 kWh with a prior
read at 100 posting 8 kWh at 160 emits exactly one durational event with
delta 3 kWh and doubled uncertainty. -/
theorem claim_C3_witness :
    (Meter.mk "v" ⟨1, .kWh⟩ 1 true ⟨5, .kWh⟩ (some 100)).durational = true ∧
    (Meter.mk "v" ⟨1, .kWh⟩ 1 true ⟨5, .kWh⟩ (some 100)).last_read_time = some 100 ∧
    (Meter.mk "v" ⟨1, .kWh⟩ 1 true ⟨5, .kWh⟩ (some 100)).PostRegisterReading
        (fun _ => true) ⟨8, .kWh⟩ none (some 160) 0
      = .ok (Meter.mk "v" ⟨1, .kWh⟩ 1 true ⟨8, .kWh⟩ (some 160))
        [Event.dur "v" 100 160 ⟨3, .kWh⟩ 1 1 ⟨2, .kWh⟩] ∧
    (∃ nr d, Quantity.ConvertTo ⟨8, .kWh⟩ .kWh = some nr ∧
      nr.sub (Quantity.mk 5 .kWh) = some d ∧
      [Event.dur "v" 100 160 ⟨3, .kWh⟩ 1 1 ⟨2, .kWh⟩]
        = [Event.dur "v" 100 ((some (160 : ℚ)).getD 0) d 1 1
            (qmulScalar ((none : Option Quantity).getD ⟨1, .kWh⟩) 2)] ∧
      (Meter.mk "v" ⟨1, .kWh⟩ 1 true ⟨8, .kWh⟩ (some 160)).register = nr ∧
      (Meter.mk "v" ⟨1, .kWh⟩ 1 true ⟨8, .kWh⟩ (some 160)).last_read_time
        = some ((some (160 : ℚ)).getD 0)) :=
  ⟨rfl, rfl, by
      norm_num [Meter.PostRegisterReading, Meter.PostDur, mkMeter,
        Quantity.ConvertTo, Quantity.sub, MUnit.IsConvertibleTo, MUnit.base,
        MUnit.factor, qmulScalar],
    (claim_C3 (Meter.mk "v" ⟨1, .kWh⟩ 1 true ⟨5, .kWh⟩ (some 100)) (fun _ => true) ⟨8, .kWh⟩ none (some 160)
      100 0 (Meter.mk "v" ⟨1, .kWh⟩ 1 true ⟨8, .kWh⟩ (some 160))
      [Event.dur "v" 100 160 ⟨3, .kWh⟩ 1 1 ⟨2, .kWh⟩] rfl).2 rfl
      (by
        norm_num [Meter.PostRegisterReading, Meter.PostDur, mkMeter,
          Quantity.ConvertTo, Quantity.sub, MUnit.IsConvertibleTo, MUnit.base,
          MUnit.factor, qmulScalar])⟩

/-- Claim C8: `Reset` clears `last_read_time` to the no-prior-reading state
and changes nothing else — in fact the reset meter is exactly a freshly
constructed meter whose register has been set to the current register — so
the next register reading behaves as on a new meter: an instantaneous
meter posts one event marked `initial = true`, a durational meter posts no
event. -/
theorem claim_C8 (m : Meter) :
    m.Reset.register = m.register ∧
    m.Reset.uncertainty = m.uncertainty ∧
    m.Reset.time_uncertainty = m.time_uncertainty ∧
    m.Reset.durational = m.durational ∧
    m.Reset.var = m.var ∧
    m.Reset.last_read_time = none ∧
    m.Reset = { mkMeter m.var m.uncertainty m.time_uncertainty m.durational
      none with register := m.register } ∧
    (∀ (postOk : Event → Bool) (q : Quantity) (unc : Option Quantity)
      (read_time : Option ℚ) (now : ℚ) (m' : Meter) (evs : List Event),
      m.durational = false →
      m.Reset.PostRegisterReading postOk q unc read_time now = .ok m' evs →
      ∃ nr, q.ConvertTo .kWh = some nr ∧
        evs = [Event.inst m.var (read_time.getD now) nr m.time_uncertainty
          (unc.getD m.uncertainty) true]) ∧
    (∀ (postOk : Event → Bool) (q : Quantity) (unc : Option Quantity)
      (read_time : Option ℚ) (now : ℚ) (m' : Meter) (evs : List Event),
      m.durational = true →
      m.Reset.PostRegisterReading postOk q unc read_time now = .ok m' evs →
      evs = []) := by
  refine ⟨rfl, rfl, rfl, rfl, rfl, rfl, rfl, ?_, ?_⟩
  · intro postOk q unc read_time now m' evs hdur h
    simp only [Meter.PostRegisterReading, Meter.PostInst, Meter.Reset,
      hdur] at h
    repeat' split at h
    all_goals
      first
        | (simp_all; done)
        | (obtain ⟨rfl, rfl⟩ := h
           exact ⟨_, by assumption, by simp_all⟩)
  · intro postOk q unc read_time now m' evs hdur h
    simp only [Meter.PostRegisterReading, Meter.Reset, hdur] at h
    repeat' split at h
    all_goals
      first
        | (simp_all; done)
        | (obtain ⟨rfl, rfl⟩ := h
           simp_all)

/-- Claim C8 witness: resetting an instantaneous meter that had a prior
read at 100 and register 5 kWh, then posting 6 kWh at 200, emits a single
event marked initial again. -/
theorem claim_C8_witness :
    (Meter.mk "v" ⟨1, .kWh⟩ 1 false ⟨5, .kWh⟩ (some 100)).durational = false ∧
    (Meter.mk "v" ⟨1, .kWh⟩ 1 false ⟨5, .kWh⟩ (some 100)).Reset.PostRegisterReading
        (fun _ => true) ⟨6, .kWh⟩ none (some 200) 0
      = .ok (Meter.mk "v" ⟨1, .kWh⟩ 1 false ⟨6, .kWh⟩ (some 200))
        [Event.inst "v" 200 ⟨6, .kWh⟩ 1 ⟨1, .kWh⟩ true] ∧
    (∃ nr, Quantity.ConvertTo ⟨6, .kWh⟩ .kWh = some nr ∧
      [Event.inst "v" 200 ⟨6, .kWh⟩ 1 ⟨1, .kWh⟩ true]
        = [Event.inst "v" ((some (200 : ℚ)).getD 0) nr 1
            ((none : Option Quantity).getD ⟨1, .kWh⟩) true]) :=
  ⟨rfl, by
      norm_num [Meter.PostRegisterReading, Meter.PostInst, Meter.Reset,
        mkMeter, Quantity.ConvertTo, MUnit.IsConvertibleTo, MUnit.base,
        MUnit.factor],
    (claim_C8 (Meter.mk "v" ⟨1, .kWh⟩ 1 false ⟨5, .kWh⟩ (some 100))).2.2.2.2.2.2.2.1 (fun _ => true)
      ⟨6, .kWh⟩ none (some 200) 0
      (Meter.mk "v" ⟨1, .kWh⟩ 1 false ⟨6, .kWh⟩ (some 200))
      [Event.inst "v" 200 ⟨6, .kWh⟩ 1 ⟨1, .kWh⟩ true] rfl
      (by
        norm_num [Meter.PostRegisterReading, Meter.PostInst, Meter.Reset,
          mkMeter, Quantity.ConvertTo, MUnit.IsConvertibleTo, MUnit.base,
          MUnit.factor])⟩

/-- Claim C10: an explicit `start_time` equal to 0 (the Unix epoch) is
falsy in Python, so the register-update branch treats it as absent and
leaves the register unchanged on every meter — yet the event branches test
`start_time is None`, so an instantaneous meter still emits boundary
events that use 0 as the start time: the two branches disagree on whether
a start time is present. -/
theorem claim_C10 (m : Meter) (postOk : Event → Bool) (q : Quantity)
    (unc : Option Quantity) (E now : ℚ) (m' : Meter) (evs : List Event) :
    (m.PostIntervalReading postOk q unc (some 0) (some E) now = .ok m' evs →
      m'.register = m.register) ∧
    (m.durational = false → m.last_read_time = none →
      m.PostIntervalReading postOk q unc (some 0) (some E) now = .ok m' evs →
      m'.register = m.register ∧
      evs = [Event.inst m.var 0 m.register m.time_uncertainty
          (unc.getD m.uncertainty) true,
        Event.inst m.var E m.register m.time_uncertainty
          (unc.getD m.uncertainty) false]) := by
  constructor
  · intro h
    simp only [Meter.PostIntervalReading, Meter.intervalRegister,
      Meter.PostInst, Meter.PostDur, pyFalsy] at h
    repeat' split at h
    all_goals
      first
        | (simp_all; done)
        | (obtain ⟨rfl, rfl⟩ := h
           simp_all)
  · intro hdur hlast h
    simp only [Meter.PostIntervalReading, Meter.intervalRegister,
      Meter.PostInst, pyFalsy, hdur, hlast] at h
    repeat' split at h
    all_goals
      first
        | (simp_all; done)
        | (obtain ⟨rfl, rfl⟩ := h
           simp_all)

/-- Claim C10 witness: a fresh instantaneous meter reading 2 kW over
[0, 3600] keeps register 0 kWh (start 0 is treated as absent by the
register branch) while still posting both boundary events, the first at
occur time 0. -/
theorem claim_C10_witness :
    (mkMeter "v" ⟨1, .kWh⟩ 1 false none).durational = false ∧
    (mkMeter "v" ⟨1, .kWh⟩ 1 false none).last_read_time = none ∧
    (mkMeter "v" ⟨1, .kWh⟩ 1 false none).PostIntervalReading (fun _ => true)
        ⟨2000, .W⟩ none (some 0) (some 3600) 0
      = .ok (Meter.mk "v" ⟨1, .kWh⟩ 1 false ⟨0, .kWh⟩ (some 3600))
        [Event.inst "v" 0 ⟨0, .kWh⟩ 1 ⟨1, .kWh⟩ true,
          Event.inst "v" 3600 ⟨0, .kWh⟩ 1 ⟨1, .kWh⟩ false] ∧
    ((Meter.mk "v" ⟨1, .kWh⟩ 1 false ⟨0, .kWh⟩ (some 3600)).register
        = (mkMeter "v" ⟨1, .kWh⟩ 1 false none).register ∧
      [Event.inst "v" 0 ⟨0, .kWh⟩ 1 ⟨1, .kWh⟩ true,
          Event.inst "v" 3600 ⟨0, .kWh⟩ 1 ⟨1, .kWh⟩ false]
        = [Event.inst "v" 0 ⟨0, .kWh⟩ 1
            ((none : Option Quantity).getD ⟨1, .kWh⟩) true,
          Event.inst "v" 3600 ⟨0, .kWh⟩ 1
            ((none : Option Quantity).getD ⟨1, .kWh⟩) false]) :=
  ⟨rfl, rfl, by
      norm_num [Meter.PostIntervalReading, Meter.intervalRegister,
        Meter.PostInst, mkMeter, pyFalsy, Quantity.IsConvertibleTo,
        MUnit.IsConvertibleTo, MUnit.base],
    (claim_C10 (mkMeter "v" ⟨1, .kWh⟩ 1 false none) (fun _ => true)
      ⟨2000, .W⟩ none 3600 0
      (Meter.mk "v" ⟨1, .kWh⟩ 1 false ⟨0, .kWh⟩ (some 3600))
      [Event.inst "v" 0 ⟨0, .kWh⟩ 1 ⟨1, .kWh⟩ true,
        Event.inst "v" 3600 ⟨0, .kWh⟩ 1 ⟨1, .kWh⟩ false]).2 rfl rfl
      (by
        norm_num [Meter.PostIntervalReading, Meter.intervalRegister,
          Meter.PostInst, mkMeter, pyFalsy, Quantity.IsConvertibleTo,
          MUnit.IsConvertibleTo, MUnit.base])⟩

/-- Claim C1 counterexample: a meter with a prior reading (at time 1) that
posts 2 kW over the explicit interval [0, 3600] keeps its register at
0 kWh, although the claim prescribes an advance by
2 kW · 3600 s = 7 200 000 J = 2 kWh: a start time of exactly 0 is falsy in
Python and the register-update branch treats it as absent. -/
theorem claim_C1_counterexample :
    (Meter.mk "v" ⟨1, .kWh⟩ 1 false ⟨0, .kWh⟩ (some 1)).PostIntervalReading
        (fun _ => true) ⟨2000, .W⟩ none (some 0) (some 3600) 0
      = .ok (Meter.mk "v" ⟨1, .kWh⟩ 1 false ⟨0, .kWh⟩ (some 3600))
        [Event.inst "v" 0 ⟨0, .kWh⟩ 1 ⟨1, .kWh⟩ true,
          Event.inst "v" 3600 ⟨0, .kWh⟩ 1 ⟨1, .kWh⟩ false] ∧
    qmulQ ⟨2000, .W⟩ ⟨3600 - 0, .s⟩ = some ⟨7200000, .J⟩ ∧
    Quantity.add ⟨0, .kWh⟩ ⟨7200000, .J⟩ = some ⟨2, .kWh⟩ ∧
    (Meter.mk "v" ⟨1, .kWh⟩ 1 false ⟨0, .kWh⟩ (some 3600)).register
      ≠ (Quantity.mk 2 .kWh) := by
  refine ⟨?_, ?_, ?_, ?_⟩
  · norm_num [Meter.PostIntervalReading, Meter.intervalRegister,
      Meter.PostInst, pyFalsy, Quantity.IsConvertibleTo,
      MUnit.IsConvertibleTo, MUnit.base]
  · norm_num [qmulQ, MUnit.products]
  · norm_num [Quantity.add, Quantity.ConvertTo, MUnit.IsConvertibleTo,
      MUnit.base, MUnit.factor]
  · simp

/-- On success, `PostIntervalReading` stores exactly the register computed
by its register phase and advances `last_read_time` to the resolved end. -/
lemma postInterval_ok_register (m : Meter) (postOk : Event → Bool)
    (quantity : Quantity) (uncertainty : Option Quantity) (S : ℚ)
    (end_time : Option ℚ) (now : ℚ) (m' : Meter) (evs : List Event) :
    m.PostIntervalReading postOk quantity uncertainty (some S) end_time now
      = .ok m' evs →
    ∃ q1, m.intervalRegister quantity (some S) (end_time.getD now)
        = .ok (q1, m'.register) ∧
      m'.last_read_time = some (end_time.getD now) := by
  intro h
  simp only [Meter.PostIntervalReading, Meter.PostInst, Meter.PostDur] at h
  repeat' split at h
  all_goals
    first
      | (simp_all; done)
      | (obtain ⟨rfl, rfl⟩ := h
         exact ⟨_, by assumption, rfl⟩)

/-- The register phase on a power-convertible quantity with a non-falsy
explicit start multiplies by the elapsed seconds and adds to the register. -/
lemma intervalRegister_power (m : Meter) (q : Quantity) (S et : ℚ)
    (q1 nr : Quantity) (hpow : MUnit.base q.unit = .W) (hS : S ≠ 0) :
    m.intervalRegister q (some S) et = .ok (q1, nr) →
    ∃ d, qmulQ q ⟨et - S, .s⟩ = some d ∧ m.register.add d = some nr := by
  intro h
  have hu : q.unit = .W := by
    cases hq : q.unit <;> simp_all [MUnit.base]
  simp [Meter.intervalRegister, pyFalsy, hS, hu, Quantity.IsConvertibleTo,
    MUnit.IsConvertibleTo, MUnit.base, qmulQ, MUnit.products] at h
  refine ⟨⟨q.value * (et - S), .J⟩, by simp [qmulQ, hu, MUnit.products], ?_⟩
  rcases hAdd : m.register.add ⟨q.value * (et - S), .J⟩ with _ | nr2 <;>
    rw [hAdd] at h <;> simp_all

/-- Claim C1 (amended): on a meter with a prior reading, an interval
reading whose quantity is power-convertible over an explicit interval
[S, E] with S ≠ 0 advances the register by the quantity multiplied by
(E − S) seconds (the unamended claim fails at S = 0, where the falsy start
leaves the register unchanged). -/
theorem claim_C1_amended (m : Meter) (postOk : Event → Bool) (q : Quantity)
    (unc : Option Quantity) (S E t now : ℚ) (m' : Meter) (evs : List Event)
    (hprior : m.last_read_time = some t) (hpow : MUnit.base q.unit = .W)
    (hS : S ≠ 0) :
    m.PostIntervalReading postOk q unc (some S) (some E) now = .ok m' evs →
    ∃ d, qmulQ q ⟨E - S, .s⟩ = some d ∧
      m.register.add d = some m'.register := by
  intro h
  obtain ⟨q1, hreg, hlast2⟩ :=
    postInterval_ok_register m postOk q unc S (some E) now m' evs h
  exact intervalRegister_power m q S ((some E).getD now) q1 m'.register
    hpow hS hreg

/-- Claim C1 witness: 2 kW over the one-hour interval [10, 3610] advances
the register by exactly 2 kWh — the same delta as an energy reading of
2 kWh. -/
theorem claim_C1_witness :
    (Meter.mk "v" ⟨1, .kWh⟩ 1 false ⟨0, .kWh⟩ (some 10)).last_read_time
      = some 10 ∧
    MUnit.base (Quantity.mk 2000 .W).unit = .W ∧
    (10 : ℚ) ≠ 0 ∧
    (Meter.mk "v" ⟨1, .kWh⟩ 1 false ⟨0, .kWh⟩ (some 10)).PostIntervalReading
        (fun _ => true) ⟨2000, .W⟩ none (some 10) (some 3610) 0
      = .ok (Meter.mk "v" ⟨1, .kWh⟩ 1 false ⟨2, .kWh⟩ (some 3610))
        [Event.inst "v" 3610 ⟨2, .kWh⟩ 1 ⟨1, .kWh⟩ false] ∧
    (∃ d, qmulQ ⟨2000, .W⟩ ⟨3610 - 10, .s⟩ = some d ∧
      Quantity.add ⟨0, .kWh⟩ d
        = some (Meter.mk "v" ⟨1, .kWh⟩ 1 false ⟨2, .kWh⟩
            (some 3610)).register) :=
  ⟨rfl, rfl, by norm_num, by
      norm_num [Meter.PostIntervalReading, Meter.intervalRegister,
        Meter.PostInst, pyFalsy, Quantity.IsConvertibleTo,
        MUnit.IsConvertibleTo, Quantity.add, Quantity.ConvertTo, qmulQ,
        MUnit.products, MUnit.base, MUnit.factor],
    claim_C1_amended (Meter.mk "v" ⟨1, .kWh⟩ 1 false ⟨0, .kWh⟩ (some 10))
      (fun _ => true) ⟨2000, .W⟩ none 10 3610 10 0
      (Meter.mk "v" ⟨1, .kWh⟩ 1 false ⟨2, .kWh⟩ (some 3610))
      [Event.inst "v" 3610 ⟨2, .kWh⟩ 1 ⟨1, .kWh⟩ false] rfl rfl
      (by norm_num)
      (by
        norm_num [Meter.PostIntervalReading, Meter.intervalRegister,
          Meter.PostInst, pyFalsy, Quantity.IsConvertibleTo,
          MUnit.IsConvertibleTo, Quantity.add, Quantity.ConvertTo, qmulQ,
          MUnit.products, MUnit.base, MUnit.factor])⟩

/-!  ## Claims about the timestamp parser -/

/-- `takeWhile` on a run of characters satisfying the predicate followed
by a remainder that does not: exactly the run is taken. -/
lemma takeWhile_all_digits (p : Char → Bool) (D R : List Char)
    (hD : ∀ c ∈ D, p c = true) (hR : ∀ c, R.head? = some c → p c = false) :
    (D ++ R).takeWhile p = D := by
  induction D with
  | nil =>
    cases R with
    | nil => simp
    | cons c R2 =>
      have hc := hR c rfl
      simp [List.takeWhile_cons, hc]
  | cons c D2 ih =>
    have hc := hD c (by simp)
    have hD2 : ∀ x ∈ D2, p x = true := fun x hx => hD x (by simp [hx])
    simp [List.takeWhile_cons, hc, ih hD2]

/-- `dropWhile` on a run of characters satisfying the predicate followed
by a remainder that does not: exactly the remainder is left. -/
lemma dropWhile_all_digits (p : Char → Bool) (D R : List Char)
    (hD : ∀ c ∈ D, p c = true) (hR : ∀ c, R.head? = some c → p c = false) :
    (D ++ R).dropWhile p = R := by
  induction D with
  | nil =>
    cases R with
    | nil => simp
    | cons c R2 =>
      have hc := hR c rfl
      simp [List.dropWhile_cons, hc]
  | cons c D2 ih =>
    have hc := hD c (by simp)
    have hD2 : ∀ x ∈ D2, p x = true := fun x hx => hD x (by simp [hx])
    simp [List.dropWhile_cons, hc, ih hD2]

/-- The millisecond reduction (src/rfc3339.py line 81,
`int((frac + '000')[:3])`) uses only the first three fractional digits:
truncation, for every fractional digit string. -/
lemma fracToMs_take_three (ds : List Char) :
    fracToMs ds = fracToMs (ds.take 3) := by
  rcases ds with _ | ⟨a, _ | ⟨b, _ | ⟨c, rest⟩⟩⟩ <;> rfl

/-- The millisecond reduction returns exactly the value of the first three
fractional digits, zero-padded — digits beyond the third never round the
value up. -/
lemma fracToMs_first_three (a b c : Char) (rest : List Char) :
    fracToMs (a :: b :: c :: rest)
      = (a.toNat - 48) * 100 + (b.toNat - 48) * 10 + (c.toNat - 48) := rfl

/-- End-to-end truncation: for every timestamp whose seconds carry a
fractional part — any valid 16-character date-time prefix, any two seconds
digits, any fractional digit run `D`, any remainder `R` that does not
continue the run — the parse result is unchanged when the fraction is
truncated to its first three digits. -/
lemma parseTimestamp_truncates_fraction
    (y1 y2 y3 y4 o1 o2 d1 d2 h1 h2 m1 m2 a b : Char) (D R : List Char)
    (hdig : ∀ c ∈ [y1, y2, y3, y4, o1, o2, d1, d2, h1, h2, m1, m2, a, b],
      c.isDigit = true)
    (hD : ∀ c ∈ D, c.isDigit = true)
    (hR : ∀ c, R.head? = some c → c.isDigit = false) :
    parseTimestamp (y1 :: y2 :: y3 :: y4 :: '-' :: o1 :: o2 :: '-' :: d1 ::
        d2 :: 'T' :: h1 :: h2 :: ':' :: m1 :: m2 :: ':' :: a :: b :: '.' ::
        (D ++ R))
      = parseTimestamp (y1 :: y2 :: y3 :: y4 :: '-' :: o1 :: o2 :: '-' ::
        d1 :: d2 :: 'T' :: h1 :: h2 :: ':' :: m1 :: m2 :: ':' :: a :: b ::
        '.' :: (D.take 3 ++ R)) := by
  have hy1 := hdig y1 (by simp)
  have hy2 := hdig y2 (by simp)
  have hy3 := hdig y3 (by simp)
  have hy4 := hdig y4 (by simp)
  have ho1 := hdig o1 (by simp)
  have ho2 := hdig o2 (by simp)
  have hd1 := hdig d1 (by simp)
  have hd2 := hdig d2 (by simp)
  have hh1 := hdig h1 (by simp)
  have hh2 := hdig h2 (by simp)
  have hm1 := hdig m1 (by simp)
  have hm2 := hdig m2 (by simp)
  have ha := hdig a (by simp)
  have hb := hdig b (by simp)
  have hD3 : ∀ c ∈ D.take 3, c.isDigit = true :=
    fun c hc => hD c (List.take_subset 3 D hc)
  have htw1 : (D ++ R).takeWhile (fun c => c.isDigit) = D :=
    takeWhile_all_digits _ D R hD hR
  have hdw1 : (D ++ R).dropWhile (fun c => c.isDigit) = R :=
    dropWhile_all_digits _ D R hD hR
  have htw2 : (D.take 3 ++ R).takeWhile (fun c => c.isDigit) = D.take 3 :=
    takeWhile_all_digits _ (D.take 3) R hD3 hR
  have hdw2 : (D.take 3 ++ R).dropWhile (fun c => c.isDigit) = R :=
    dropWhile_all_digits _ (D.take 3) R hD3 hR
  simp [parseTimestamp, parseSecondsGroup, readDigits, expectChar, hy1, hy2,
    hy3, hy4, ho1, ho2, hd1, hd2, hh1, hh2, hm1, hm2, ha, hb, htw1, hdw1,
    htw2, hdw2]
  rw [fracToMs_take_three D]

/-- Claim C9 counterexample: `FromTimestamp` uses a prefix match
(`re.match` without an end anchor, optional seconds, loose zone), so the
non-RFC-3339 string "2009-01-01T00:00Zx" — trailing garbage, no seconds
field — is accepted and parsed as 2009-01-01, not rejected: the claim that
every input not in RFC-3339 format raises an error is false. -/
theorem claim_C9_counterexample :
    IsRfc3339String "2009-01-01T00:00Zx" = false ∧
    FromTimestamp "2009-01-01T00:00Zx" = some 1230768000 := by
  constructor
  · rfl
  · rw [show FromTimestamp "2009-01-01T00:00Zx"
      = some (((1230768000000 : Int) : ℚ) / 1000) from rfl]
    norm_num

/-- Claim C9 (amended): because the pattern is only prefix-matched
(`re.match` with no end anchor, seconds optional, loose zone),
`FromTimestamp` does not raise on every non-RFC-3339 input — trailing
characters after a matched prefix are accepted (the counterexample).  The
rest of the original claim holds universally: every value returned is an
integer multiple of 0.001 seconds; and fractional seconds beyond the third
digit are truncated, not rounded — for every accepted input with a
fractional part (any valid date-time prefix, seconds digits, fractional
digit run and non-digit remainder), the parse result is unchanged when the
fraction is cut to its first three digits, and the milliseconds are
exactly the value of the first three fractional digits, zero-padded, for
every fractional digit string. -/
theorem claim_C9_amended :
    (∀ (s : String) (r : ℚ), FromTimestamp s = some r →
      ∃ n : ℤ, r = (n : ℚ) / 1000) ∧
    (∀ (y1 y2 y3 y4 o1 o2 d1 d2 h1 h2 m1 m2 a b : Char) (D R : List Char),
      (∀ c ∈ [y1, y2, y3, y4, o1, o2, d1, d2, h1, h2, m1, m2, a, b],
        c.isDigit = true) →
      (∀ c ∈ D, c.isDigit = true) →
      (∀ c, R.head? = some c → c.isDigit = false) →
      parseTimestamp (y1 :: y2 :: y3 :: y4 :: '-' :: o1 :: o2 :: '-' :: d1 ::
          d2 :: 'T' :: h1 :: h2 :: ':' :: m1 :: m2 :: ':' :: a :: b :: '.' ::
          (D ++ R))
        = parseTimestamp (y1 :: y2 :: y3 :: y4 :: '-' :: o1 :: o2 :: '-' ::
          d1 :: d2 :: 'T' :: h1 :: h2 :: ':' :: m1 :: m2 :: ':' :: a :: b ::
          '.' :: (D.take 3 ++ R))) ∧
    (∀ (a b c : Char) (rest : List Char),
      fracToMs (a :: b :: c :: rest)
        = (a.toNat - 48) * 100 + (b.toNat - 48) * 10 + (c.toNat - 48)) ∧
    FromTimestamp "1970-01-01T00:00:00.1239Z"
      = FromTimestamp "1970-01-01T00:00:00.123Z" ∧
    FromTimestamp "1970-01-01T00:00:00.123Z" = some ((123 : ℚ) / 1000) := by
  refine ⟨?_, ?_, fun _ _ _ _ => rfl, rfl, ?_⟩
  · intro s r h
    rcases hp : parseTimestamp (s.toList.filter (fun c => !(isPySpace c)))
      with _ | f
    · simp only [FromTimestamp, hp] at h
      simp at h
    · rcases ht : timegm f.year f.month f.day f.hour f.minute f.second
        with _ | it
      · simp only [FromTimestamp, hp, ht] at h
        simp at h
      · simp only [FromTimestamp, hp, ht, Option.some.injEq] at h
        refine ⟨(it - f.zoneOffset) * 1000 + f.milliseconds, ?_⟩
        subst h
        push_cast
        try ring
  · intro y1 y2 y3 y4 o1 o2 d1 d2 h1 h2 m1 m2 a b D R hdig hD hR
    exact parseTimestamp_truncates_fraction y1 y2 y3 y4 o1 o2 d1 d2 h1 h2
      m1 m2 a b D R hdig hD hR
  · rw [show FromTimestamp "1970-01-01T00:00:00.123Z"
      = some (((123 : Int) : ℚ) / 1000) from rfl]
    norm_num

/-- Claim C9 witness: a well-formed timestamp parses to a multiple of
0.001 seconds, and the universal truncation clause applied at the concrete
input 1970-01-01T00:00:00 with fraction 1239 shows the fourth fractional
digit is ignored. -/
theorem claim_C9_witness :
    FromTimestamp "2009-01-01T00:00:01Z" = some (1230768001 : ℚ) ∧
    (∃ n : ℤ, (1230768001 : ℚ) = (n : ℚ) / 1000) ∧
    (∀ c ∈ (['1', '9', '7', '0', '0', '1', '0', '1', '0', '0', '0', '0',
        '0', '0'] : List Char), c.isDigit = true) ∧
    (∀ c ∈ (['1', '2', '3', '9'] : List Char), c.isDigit = true) ∧
    (∀ c, (['Z'] : List Char).head? = some c → c.isDigit = false) ∧
    parseTimestamp ('1' :: '9' :: '7' :: '0' :: '-' :: '0' :: '1' :: '-' ::
        '0' :: '1' :: 'T' :: '0' :: '0' :: ':' :: '0' :: '0' :: ':' :: '0' ::
        '0' :: '.' :: ((['1', '2', '3', '9'] : List Char) ++ ['Z']))
      = parseTimestamp ('1' :: '9' :: '7' :: '0' :: '-' :: '0' :: '1' ::
        '-' :: '0' :: '1' :: 'T' :: '0' :: '0' :: ':' :: '0' :: '0' :: ':' ::
        '0' :: '0' :: '.' ::
        ((['1', '2', '3', '9'] : List Char).take 3 ++ ['Z'])) :=
  ⟨by
      rw [show FromTimestamp "2009-01-01T00:00:01Z"
        = some (((1230768001000 : Int) : ℚ) / 1000) from rfl]
      norm_num,
    claim_C9_amended.1 "2009-01-01T00:00:01Z" 1230768001
      (by
        rw [show FromTimestamp "2009-01-01T00:00:01Z"
          = some (((1230768001000 : Int) : ℚ) / 1000) from rfl]
        norm_num),
    by decide, by decide, by decide,
    claim_C9_amended.2.1 '1' '9' '7' '0' '0' '1' '0' '1' '0' '0' '0' '0'
      '0' '0' ['1', '2', '3', '9'] ['Z'] (by decide) (by decide)
      (by decide)⟩

end GoogleMeter
